import Mathlib

/-!
A shallow embedding of the `zpool import` stdout parsing pipeline of this
repository (grammar engine plus domain builder), together with proofs about
it.  The repository ships the grammar as a separate declarative rule file and
the tree-to-domain builder in a module that is not part of the visible
sources; only the test module `src/parsers/mod.rs` (which pins the grammar's
behaviour on concrete inputs through exact token assertions) is visible.
The definitions below are therefore modelled from the specification, and are
kept consistent with every token assertion of the visible test module.

Strings are modelled as lists of characters; the text is split into lines
and each grammar rule is modelled as a function on lines.  Parse failures
carry the failing rule name and the line number, mirroring the positional
errors of the grammar engine.
-/

/-- A string, modelled as a list of characters. -/
abbrev Str := List Char

/-- Health vocabulary of the tool, mirroring the spec's `HealthState`. -/
inductive HealthState where
  | online
  | degraded
  | faulted
  | offline
  | unavail
  | removed
deriving DecidableEq

/-- Modelled from the spec: classification of the free-text guidance block
into exactly one of the good variant (the pool can be brought in) or the bad
variant, each preserving the raw sentence. -/
inductive Advisory where
  | importable : Str → Advisory
  | notImportable : Str → Advisory
deriving DecidableEq

/-- Leaf of the device tree: a path, a health state and an optional free-text
note such as "missing device". -/
structure DiskLine where
  path : Str
  state : HealthState
  note : Option Str
deriving DecidableEq

/-- Modelled from the spec: one top-level vdev group, a closed variant set. -/
inductive Vdev where
  | naked : DiskLine → Vdev
  | mirror : List DiskLine → Vdev
  | raidz : Nat → List DiskLine → Vdev
  | spare : DiskLine → Vdev
  | log : DiskLine → Vdev
  | cache : DiskLine → Vdev
deriving DecidableEq

/-- Modelled from the spec: one importable storage pool candidate.  The
`topology` field is the root sequence of top-level vdev groups in document
order. -/
structure Pool where
  name : Str
  id : Nat
  health : HealthState
  advisory : Advisory
  status_message : Option Str
  see_also : Option Str
  topology : List Vdev
deriving DecidableEq

/-- A positional parse failure: the failing rule name and the line number. -/
structure ParseErr where
  rule : Str
  line : Nat
deriving DecidableEq

/- ### String utilities -/

/-- Space or tab. -/
def isSpace (c : Char) : Bool := c == ' ' || c == '\t'

/-- Drop leading spaces and tabs. -/
def stripLeading (l : Str) : Str := l.dropWhile isSpace

/-- A line holding only whitespace (or nothing). -/
def isBlank (l : Str) : Bool := (stripLeading l).isEmpty

/-- Boolean prefix test on character lists. -/
def strHasPrefix : Str → Str → Bool
  | [], _ => true
  | _ :: _, [] => false
  | a :: as, b :: bs => (a == b) && strHasPrefix as bs

/-- Boolean substring test: `containsSubstr needle hay`. -/
def containsSubstr (needle : Str) : Str → Bool
  | [] => needle.isEmpty
  | c :: cs => strHasPrefix needle (c :: cs) || containsSubstr needle cs

/-- Characters allowed in a `name` token: non-whitespace, non-colon. -/
def nameChar (c : Char) : Bool := !isSpace c && !(c == ':')

/-- The `name` rule: a run of non-whitespace, non-colon characters. -/
def nameToken (l : Str) : Str := l.takeWhile nameChar

/-- Numeric value of a run of decimal digits. -/
def natOfDigits (ds : Str) : Nat := ds.foldl (fun a c => a * 10 + (c.toNat - 48)) 0

/-- The `state_enum` rule: one token drawn from the fixed health vocabulary;
unrecognized tokens are a parse failure, not a silent default. -/
def stateOfToken (t : Str) : Option HealthState :=
  if t = "ONLINE".data then some HealthState.online
  else if t = "DEGRADED".data then some HealthState.degraded
  else if t = "FAULTED".data then some HealthState.faulted
  else if t = "OFFLINE".data then some HealthState.offline
  else if t = "UNAVAIL".data then some HealthState.unavail
  else if t = "REMOVED".data then some HealthState.removed
  else none

/- ### Line splitting -/

/-- Worker for `splitLines`: `acc` holds the current line reversed. -/
def splitLinesAux : Str → Str → List Str
  | [], acc => [acc.reverse]
  | c :: rest, acc =>
    if c = '\n' then acc.reverse :: splitLinesAux rest []
    else splitLinesAux rest (c :: acc)

/-- Split a text buffer into its lines (a trailing newline yields a final
empty line, as with the usual split-on-newline semantics). -/
def splitLines (s : Str) : List Str := splitLinesAux s []

/-- Join lines with newline separators (inverse of `splitLines` on
newline-free lines). -/
def joinLines : List Str → Str
  | [] => []
  | [l] => l
  | l :: ls => l ++ '\n' :: joinLines ls

/- ### Header lines -/

/-- Match a header line: optional leading whitespace, the keyword, exactly one
space, then the payload (the tool's output puts one space after the colon). -/
def matchHeader (kw : Str) (l : Str) : Option Str :=
  let t := stripLeading l
  match strHasPrefix (kw ++ [' ']) t with
  | true => some (t.drop (kw.length + 1))
  | false => none

/-- The keywords that introduce a section of a pool block. -/
def headerKws : List Str :=
  ["pool:".data, "id:".data, "state:".data, "status:".data,
   "action:".data, "see:".data, "config:".data]

/-- A line whose first token is one of the section keywords. -/
def isHeaderLine (l : Str) : Bool :=
  headerKws.any (fun kw => strHasPrefix kw (stripLeading l))

/-- Collect the indented free-text lines continuing a `status:`/`action:`
body: every following line up to the next blank line or section header. -/
def collectCont : List Str → List Str × List Str
  | [] => ([], [])
  | l :: rest =>
    match isBlank l || isHeaderLine l with
    | true => ([], l :: rest)
    | false => let p := collectCont rest; (l :: p.1, p.2)

/-- Re-join a multi-line advisory body into one contiguous message. -/
def joinBody (pay : Str) (conts : List Str) : Str :=
  conts.foldl (fun a c => a ++ ' ' :: stripLeading c) pay

/- ### Advisory classification -/

/-- The bad-advisory phrasing used by the tool. -/
def badPhrase : Str := "cannot be imported".data

/-- The good-advisory phrasing used by the tool. -/
def goodPhrase : Str := "can be imported".data

/-- Modelled from the spec and pinned by the visible tests: a body holding the
`cannot be imported` phrasing classifies as the bad variant; every other body
classifies as the good variant.  (The test module labels the free-text status
line "One or more devices are missing from the system." with the good-message
rule, so the good rule accepts free text and is not keyword-gated.) -/
def mkAdvisory (b : Str) : Advisory :=
  if containsSubstr badPhrase b = true then Advisory.notImportable b
  else Advisory.importable b

/-- The `action_msg` rule: an empty body matches neither message rule and
fails; any nonempty body classifies via `mkAdvisory`. -/
def classifyAction : Str → Option Advisory
  | [] => none
  | c :: cs => some (mkAdvisory (c :: cs))

/-- The `action_good_msg` rule as the grammar actually applies it to a
`status:` body: any nonempty free-text span matches. -/
def actionGoodMsg (b : Str) : Bool := !b.isEmpty

/- ### Device lines -/

/-- Indentation depth of a line. -/
def indentOf (l : Str) : Nat := (l.takeWhile isSpace).length

/-- The `disk_line` rule: an absolute path token, a health token, and an
optional trailing note. -/
def parseDiskLine (l : Str) : Option DiskLine :=
  match stripLeading l with
  | '/' :: t =>
    let full := '/' :: t
    let pth := full.takeWhile (fun c => !isSpace c)
    let rest1 := stripLeading (full.drop pth.length)
    let tok := rest1.takeWhile (fun c => !isSpace c)
    match stateOfToken tok with
    | none => none
    | some hs =>
      let rest2 := stripLeading (rest1.drop tok.length)
      some ⟨pth, hs, match rest2 with | [] => none | c :: cs => some (c :: cs)⟩
  | _ => none

/-- The `pool_line` rule: the pool's own summary line inside `config:`
(name, aggregate health, optional note), never itself a leaf disk. -/
def poolConfigLine (l : Str) : Option (Str × HealthState × Option Str) :=
  let t := stripLeading l
  match nameToken t with
  | [] => none
  | c :: cs =>
    let nm := c :: cs
    let rest1 := stripLeading (t.drop nm.length)
    let tok := rest1.takeWhile (fun c => !isSpace c)
    match stateOfToken tok with
    | none => none
    | some hs =>
      let rest2 := stripLeading (rest1.drop tok.length)
      some (nm, hs, match rest2 with | [] => none | c :: cs => some (c :: cs))

/-- Kinds of device-group keyword lines. -/
inductive GroupKind where
  | mirror
  | raidz : Nat → GroupKind
  | spare
  | log
  | cache
deriving DecidableEq

/-- Recognize a group keyword line by its first token. -/
def groupKindOf (l : Str) : Option GroupKind :=
  let tok := (stripLeading l).takeWhile (fun c => !isSpace c)
  if strHasPrefix "mirror".data tok then some GroupKind.mirror
  else if strHasPrefix "raidz3".data tok then some (GroupKind.raidz 3)
  else if strHasPrefix "raidz2".data tok then some (GroupKind.raidz 2)
  else if strHasPrefix "raidz1".data tok then some (GroupKind.raidz 1)
  else if strHasPrefix "raidz".data tok then some (GroupKind.raidz 1)
  else if strHasPrefix "spare".data tok then some GroupKind.spare
  else if strHasPrefix "log".data tok then some GroupKind.log
  else if strHasPrefix "cache".data tok then some GroupKind.cache
  else none

/-- Build the `Vdev` variant for a group; the auxiliary single-disk roles
carry exactly one disk. -/
def mkGroup : GroupKind → List DiskLine → Option Vdev
  | GroupKind.mirror, ds => some (Vdev.mirror ds)
  | GroupKind.raidz n, ds => some (Vdev.raidz n ds)
  | GroupKind.spare, [d] => some (Vdev.spare d)
  | GroupKind.log, [d] => some (Vdev.log d)
  | GroupKind.cache, [d] => some (Vdev.cache d)
  | _, _ => none

/-- Collect the member disk lines of a group: the following lines indented
more deeply than the group keyword line. -/
def collectDisks (g : Nat) : List Str → List DiskLine × List Str
  | [] => ([], [])
  | l :: rest =>
    if g < indentOf l then
      match parseDiskLine l with
      | some d => let p := collectDisks g rest; (d :: p.1, p.2)
      | none => ([], l :: rest)
    else ([], l :: rest)

/-- The `vdevs` rule: an ordered sequence of top-level vdev entries, each a
naked disk line or a group keyword line followed by its member disks;
recognition stops at the first line of neither shape. -/
def parseVdevEntries : Nat → List Str → List Vdev × List Str
  | 0, ls => ([], ls)
  | _ + 1, [] => ([], [])
  | fuel + 1, l :: rest =>
    match parseDiskLine l with
    | some d => let p := parseVdevEntries fuel rest; (Vdev.naked d :: p.1, p.2)
    | none =>
      match groupKindOf l with
      | none => ([], l :: rest)
      | some k =>
        let q := collectDisks (indentOf l) rest
        match q.1 with
        | [] => ([], l :: rest)
        | _ :: _ =>
          match mkGroup k q.1 with
          | none => ([], l :: rest)
          | some v => let p := parseVdevEntries fuel q.2; (v :: p.1, p.2)

/- ### The pool-block parser, staged -/

/-- Sequencing for `Except`-valued parse stages. -/
def pbind {α β : Type} (x : Except ParseErr α) (f : α → Except ParseErr β) :
    Except ParseErr β :=
  match x with
  | Except.error e => Except.error e
  | Except.ok a => f a

/-- Demand one line matched by `f`; fail positionally with `rule` otherwise. -/
def expectLine {α : Type} (f : Str → Option α) (rule : Str) :
    List Str → Nat → Except ParseErr (α × List Str × Nat)
  | [], i => Except.error ⟨rule, i⟩
  | l :: r, i =>
    match f l with
    | none => Except.error ⟨rule, i⟩
    | some a => Except.ok (a, r, i + 1)

/-- The `pool_name` rule: the `pool:` header line carrying a `name` token. -/
def poolNameLine (l : Str) : Option Str :=
  match matchHeader "pool:".data l with
  | none => none
  | some pay =>
    match nameToken pay with
    | [] => none
    | c :: cs => some (c :: cs)

/-- The `pool_id` rule: the `id:` header line carrying a run of decimal
digits whose value must fit the 64-bit identifier type. -/
def poolIdLine (l : Str) : Option Nat :=
  match matchHeader "id:".data l with
  | none => none
  | some pay =>
    match pay.takeWhile Char.isDigit with
    | [] => none
    | c :: cs =>
      if natOfDigits (c :: cs) < 18446744073709551616 then some (natOfDigits (c :: cs))
      else none

/-- The `state` rule: the `state:` header line carrying a health token. -/
def stateLine (l : Str) : Option HealthState :=
  match matchHeader "state:".data l with
  | none => none
  | some pay => stateOfToken (pay.takeWhile (fun c => !isSpace c))

/-- The `config` rule: the literal `config:` section header, a delimiter. -/
def configLine (l : Str) : Option Unit :=
  match strHasPrefix "config:".data (stripLeading l) with
  | true => some ()
  | false => none

/-- The optional `status` rule: a `status:` line whose free-text body (with
its indented continuation lines) is matched by the good-message rule.  When
the rule does not apply, no line is consumed. -/
def tryStatus (ls : List Str) (i : Nat) : Option Str × List Str × Nat :=
  match ls with
  | [] => (none, [], i)
  | l :: rest =>
    match matchHeader "status:".data l with
    | none => (none, l :: rest, i)
    | some pay =>
      let p := collectCont rest
      match joinBody pay p.1 with
      | [] => (none, l :: rest, i)
      | c :: cs => (some (c :: cs), p.2, i + 1 + p.1.length)

/-- The `action` rule: mandatory `action:` line whose re-joined body
classifies into exactly one advisory variant; an empty body fails. -/
def parseAction (ls : List Str) (i : Nat) :
    Except ParseErr (Advisory × List Str × Nat) :=
  match ls with
  | [] => Except.error ⟨"action".data, i⟩
  | l :: rest =>
    match matchHeader "action:".data l with
    | none => Except.error ⟨"action".data, i⟩
    | some pay =>
      let p := collectCont rest
      match joinBody pay p.1 with
      | [] => Except.error ⟨"action_msg".data, i⟩
      | c :: cs => Except.ok (mkAdvisory (c :: cs), p.2, i + 1 + p.1.length)

/-- The optional `see` rule: a `see:` line carrying a reference URL token. -/
def trySee (ls : List Str) (i : Nat) : Option Str × List Str × Nat :=
  match ls with
  | [] => (none, [], i)
  | l :: rest =>
    match matchHeader "see:".data l with
    | none => (none, l :: rest, i)
    | some pay =>
      match pay.takeWhile (fun c => !isSpace c) with
      | [] => (none, l :: rest, i)
      | c :: cs => (some (c :: cs), rest, i + 1)

/-- Skip blank lines, tracking the line number. -/
def skipBlanks : List Str → Nat → List Str × Nat
  | [], i => ([], i)
  | l :: rest, i =>
    match isBlank l with
    | true => skipBlanks rest (i + 1)
    | false => (l :: rest, i)

/-- Final stage: the `vdevs` rule must yield at least one entry; the `Pool`
is assembled with its topology in document order. -/
def vdevsStage (nm : Str) (idv : Nat) (hs : HealthState) (stat : Option Str)
    (adv : Advisory) (see : Option Str) (ls : List Str) (i : Nat) :
    Except ParseErr (Pool × List Str × Nat) :=
  match parseVdevEntries ls.length ls with
  | ([], _) => Except.error ⟨"vdevs".data, i⟩
  | (v :: vt, r) =>
    Except.ok ({ name := nm, id := idv, health := hs, advisory := adv,
                 status_message := stat, see_also := see, topology := v :: vt },
               r, i + (ls.length - r.length))

/-- Stage: the `pool_line` summary line inside `config:`. -/
def poolLineStage (nm : Str) (idv : Nat) (hs : HealthState) (stat : Option Str)
    (adv : Advisory) (see : Option Str) (ls : List Str) (i : Nat) :
    Except ParseErr (Pool × List Str × Nat) :=
  pbind (expectLine poolConfigLine "pool_line".data ls i) fun r =>
    vdevsStage nm idv hs stat adv see r.2.1 r.2.2

/-- Stage: the `config:` delimiter followed by blank separation. -/
def configStage (nm : Str) (idv : Nat) (hs : HealthState) (stat : Option Str)
    (adv : Advisory) (see : Option Str) (ls : List Str) (i : Nat) :
    Except ParseErr (Pool × List Str × Nat) :=
  pbind (expectLine configLine "config".data ls i) fun r =>
    let s := skipBlanks r.2.1 r.2.2
    poolLineStage nm idv hs stat adv see s.1 s.2

/-- Stage: the optional `see:` section. -/
def seeStage (nm : Str) (idv : Nat) (hs : HealthState) (stat : Option Str)
    (adv : Advisory) (ls : List Str) (i : Nat) :
    Except ParseErr (Pool × List Str × Nat) :=
  let t := trySee ls i
  configStage nm idv hs stat adv t.1 t.2.1 t.2.2

/-- Stage: the mandatory `action:` section. -/
def actionStage (nm : Str) (idv : Nat) (hs : HealthState) (stat : Option Str)
    (ls : List Str) (i : Nat) : Except ParseErr (Pool × List Str × Nat) :=
  pbind (parseAction ls i) fun r =>
    seeStage nm idv hs stat r.1 r.2.1 r.2.2

/-- Stage: the optional `status:` section. -/
def statusStage (nm : Str) (idv : Nat) (hs : HealthState)
    (ls : List Str) (i : Nat) : Except ParseErr (Pool × List Str × Nat) :=
  let t := tryStatus ls i
  actionStage nm idv hs t.1 t.2.1 t.2.2

/-- Stage: the mandatory `state:` header line. -/
def stateStage (nm : Str) (idv : Nat) (ls : List Str) (i : Nat) :
    Except ParseErr (Pool × List Str × Nat) :=
  pbind (expectLine stateLine "state_enum".data ls i) fun r =>
    statusStage nm idv r.1 r.2.1 r.2.2

/-- Stage: the mandatory `id:` header line. -/
def idStage (nm : Str) (ls : List Str) (i : Nat) :
    Except ParseErr (Pool × List Str × Nat) :=
  pbind (expectLine poolIdLine "pool_id".data ls i) fun r =>
    stateStage nm r.1 r.2.1 r.2.2

/-- The `zpool_import` rule on a list of lines: one full pool block, returning
the `Pool`, the unconsumed lines, and the next line number. -/
def parsePoolAt (ls : List Str) (i : Nat) :
    Except ParseErr (Pool × List Str × Nat) :=
  pbind (expectLine poolNameLine "pool_name".data ls i) fun r =>
    idStage r.1 r.2.1 r.2.2

/-- Single-pool entry point on raw text, also yielding the unconsumed lines
after the block (the grammar does not anchor at end of input). -/
def parsePoolFull (s : Str) : Except ParseErr (Pool × List Str) :=
  match parsePoolAt (splitLines s) 0 with
  | Except.error e => Except.error e
  | Except.ok r => Except.ok (r.1, r.2.1)

/-- Modelled from the spec: the single-pool entry point — given text believed
to hold exactly one pool block, one `Pool` or a structured parse error. -/
def parseZpoolImport (s : Str) : Except ParseErr Pool :=
  match parsePoolFull s with
  | Except.error e => Except.error e
  | Except.ok r => Except.ok r.1

/-- Worker for the multi-pool entry point: blocks separated by blank lines,
consumed to the end of the document; the first unparseable block surfaces
its error rather than being skipped. -/
def parsePoolsAt : Nat → List Str → Nat → Except ParseErr (List Pool)
  | 0, _, i => Except.error ⟨"zpools_import".data, i⟩
  | fuel + 1, ls, i =>
    let s := skipBlanks ls i
    match s.1 with
    | [] => Except.ok []
    | l :: r =>
      pbind (parsePoolAt (l :: r) s.2) fun rr =>
        pbind (parsePoolsAt fuel rr.2.1 rr.2.2) fun ps =>
          Except.ok (rr.1 :: ps)

/-- Modelled from the spec: the multi-pool entry point — an ordered, finite
sequence of `Pool` values, one per block in document order (an empty document
yields the empty sequence). -/
def parseZpoolsImport (s : Str) : Except ParseErr (List Pool) :=
  parsePoolsAt ((splitLines s).length + 1) (splitLines s) 0

/- ### Concrete inputs pinned by the visible test module -/

/-- The valid single-pool listing with two naked disks, from the test module. -/
def goodText : Str :=
  ("pool: naked_test\n" ++
   "     id: 3364973538352047455\n" ++
   "  state: ONLINE\n" ++
   " action: The pool can be imported using its name or numeric identifier.\n" ++
   " config:\n" ++
   "\n" ++
   "        naked_test             ONLINE\n" ++
   "          /vdevs/import/vdev0  ONLINE\n" ++
   "          /vdevs/import/vdev1  ONLINE\n" ++
   "          ").data

/-- The same listing with the two disk lines in the opposite order. -/
def goodTextRev : Str :=
  ("pool: naked_test\n" ++
   "     id: 3364973538352047455\n" ++
   "  state: ONLINE\n" ++
   " action: The pool can be imported using its name or numeric identifier.\n" ++
   " config:\n" ++
   "\n" ++
   "        naked_test             ONLINE\n" ++
   "          /vdevs/import/vdev1  ONLINE\n" ++
   "          /vdevs/import/vdev0  ONLINE\n" ++
   "          ").data

/-- The degraded-pool listing with `status:`, a bad advisory, a `see:` URL
and trailing free text after the device lines, from the test module. -/
def badText : Str :=
  ("pool: naked_test\n" ++
   "     id: 3364973538352047455\n" ++
   "  state: UNAVAIL\n" ++
   " status: One or more devices are missing from the system.\n" ++
   " action: The pool cannot be imported. Attach the missing\n" ++
   "        devices and try again.\n" ++
   "   see: http://illumos.org/msg/ZFS-8000-6X\n" ++
   " config:\n" ++
   "\n" ++
   "        naked_test             UNAVAIL  missing device\n" ++
   "          /vdevs/import/vdev0  ONLINE\n" ++
   "\n" ++
   "        Additional devices are known to be part of this pool, though their\n" ++
   "        exact configuration cannot be determined.\n" ++
   "        ").data

/-- Two concatenated pool blocks, from the multi-pool test. -/
def multiText : Str :=
  ("pool: naked_test\n" ++
   "     id: 3364973538352047455\n" ++
   "  state: ONLINE\n" ++
   " action: The pool can be imported using its name or numeric identifier.\n" ++
   " config:\n" ++
   "\n" ++
   "        naked_test             ONLINE\n" ++
   "          /vdevs/import/vdev0  ONLINE\n" ++
   "          /vdevs/import/vdev1  ONLINE\n" ++
   "\n" ++
   "     pool: naked_test2\n" ++
   "     id: 3364973538352047455\n" ++
   "  state: ONLINE\n" ++
   " action: The pool can be imported using its name or numeric identifier.\n" ++
   " config:\n" ++
   "\n" ++
   "        naked_test             ONLINE\n" ++
   "          /vdevs/import/vdev0  ONLINE\n" ++
   "          /vdevs/import/vdev1  ONLINE\n" ++
   "          ").data

/-- A valid block truncated immediately after its `config:` header. -/
def truncText : Str :=
  ("pool: naked_test\n" ++
   "     id: 3364973538352047455\n" ++
   "  state: ONLINE\n" ++
   " action: The pool can be imported using its name or numeric identifier.\n" ++
   " config:").data

/-- A block whose `action:` body holds neither the good nor the bad
phrasing of the tool. -/
def neutralText : Str :=
  ("pool: naked_test\n" ++
   "     id: 3364973538352047455\n" ++
   "  state: ONLINE\n" ++
   " action: Destroy and re-create the pool from a backup source.\n" ++
   " config:\n" ++
   "\n" ++
   "        naked_test             ONLINE\n" ++
   "          /vdevs/import/vdev0  ONLINE\n" ++
   "          ").data

/-- The neutral `action:` body by itself. -/
def neutralBody : Str := "Destroy and re-create the pool from a backup source.".data

/-- A block whose `state:` header carries a token outside the health
vocabulary. -/
def bogusStateText : Str :=
  ("pool: naked_test\n" ++
   "     id: 3364973538352047455\n" ++
   "  state: SHINY\n" ++
   " action: The pool can be imported using its name or numeric identifier.\n" ++
   " config:\n" ++
   "\n" ++
   "        naked_test             ONLINE\n" ++
   "          /vdevs/import/vdev0  ONLINE\n" ++
   "          ").data

/-- The status body pinned by the degraded-pool test. -/
def statusBody : Str := "One or more devices are missing from the system.".data

/- ### Device order preservation -/

/-- Disk paths carried by one vdev entry, in stored order. -/
def vdevPaths : Vdev → List Str
  | Vdev.naked d => [d.path]
  | Vdev.mirror ds => ds.map DiskLine.path
  | Vdev.raidz _ ds => ds.map DiskLine.path
  | Vdev.spare d => [d.path]
  | Vdev.log d => [d.path]
  | Vdev.cache d => [d.path]

/-- Disk paths of a root vdev sequence, flattened in order. -/
def vdevsPaths (vs : List Vdev) : List Str :=
  vs.foldr (fun v acc => vdevPaths v ++ acc) []

/-- The disk path a single input line carries, when it is a disk line. -/
def lineDiskPath (l : Str) : Option Str := (parseDiskLine l).map DiskLine.path

/-- The disk paths of a region of input lines, in textual order. -/
def linePaths (ls : List Str) : List Str := ls.filterMap lineDiskPath

/- ### Templates for families of valid blocks -/

/-- A family of valid single-pool listings: the `pool:` and `id:` payloads
vary, the remainder is the shape pinned by the test module. -/
def mkNakedLines (nm ds : Str) : List Str :=
  ["pool: ".data ++ nm,
   "     id: ".data ++ ds,
   "  state: ONLINE".data,
   " action: The pool can be imported using its name or numeric identifier.".data,
   " config:".data,
   [],
   "        naked_test             ONLINE".data,
   "          /vdevs/import/vdev0  ONLINE".data,
   "          /vdevs/import/vdev1  ONLINE".data]

/-- A family of degraded single-pool listings: the `status:`, `action:` and
`see:` payloads vary, the remainder is the shape pinned by the test module. -/
def mkBadLines (st act url : Str) : List Str :=
  ["pool: naked_test".data,
   "     id: 3364973538352047455".data,
   "  state: UNAVAIL".data,
   " status: ".data ++ st,
   " action: ".data ++ act,
   "   see: ".data ++ url,
   " config:".data,
   [],
   "        naked_test             UNAVAIL  missing device".data,
   "          /vdevs/import/vdev0  ONLINE".data]

/- ### Named result values -/

/-- The `Pool` produced for the valid naked-disk listing. -/
def goodPool : Pool :=
  { name := "naked_test".data, id := 3364973538352047455,
    health := HealthState.online,
    advisory := Advisory.importable
      "The pool can be imported using its name or numeric identifier.".data,
    status_message := none, see_also := none,
    topology := [Vdev.naked ⟨"/vdevs/import/vdev0".data, HealthState.online, none⟩,
                 Vdev.naked ⟨"/vdevs/import/vdev1".data, HealthState.online, none⟩] }

/-- The second `Pool` of the multi-pool listing. -/
def multiPool2 : Pool := { goodPool with name := "naked_test2".data }

/-- The `Pool` produced for the degraded listing. -/
def badPool : Pool :=
  { name := "naked_test".data, id := 3364973538352047455,
    health := HealthState.unavail,
    advisory := Advisory.notImportable
      "The pool cannot be imported. Attach the missing devices and try again.".data,
    status_message := some statusBody,
    see_also := some "http://illumos.org/msg/ZFS-8000-6X".data,
    topology := [Vdev.naked ⟨"/vdevs/import/vdev0".data, HealthState.online, none⟩] }

/-- The free-text lines after the degraded block that the single-pool rule
leaves unconsumed. -/
def badTrailing : List Str :=
  [[],
   "        Additional devices are known to be part of this pool, though their".data,
   "        exact configuration cannot be determined.".data,
   "        ".data]

/-- A placeholder pool value. -/
def trivialPool : Pool :=
  { name := [], id := 0, health := HealthState.online,
    advisory := Advisory.importable [], status_message := none,
    see_also := none, topology := [] }

/-- The naked-block family truncated immediately after its `config:` header. -/
def mkTruncLines (nm ds : Str) : List Str :=
  ["pool: ".data ++ nm,
   "     id: ".data ++ ds,
   "  state: ONLINE".data,
   " action: The pool can be imported using its name or numeric identifier.".data,
   " config:".data]

/-- The re-joined bad `action:` body of the degraded test listing. -/
def badBody : Str :=
  "The pool cannot be imported. Attach the missing devices and try again.".data


/- ### Helper lemmas -/

theorem pbind_ok {α β : Type} (a : α) (f : α → Except ParseErr β) :
    pbind (Except.ok a) f = f a := rfl

theorem pbind_ok_elim {α β : Type} {x : Except ParseErr α}
    {f : α → Except ParseErr β} {r : β}
    (h : pbind x f = Except.ok r) : ∃ a, x = Except.ok a ∧ f a = Except.ok r := by
  cases x with
  | error e => exact absurd h (by simp [pbind])
  | ok a => exact ⟨a, rfl, h⟩

theorem expectLine_cons {α : Type} (f : Str → Option α) (rule l : Str)
    (r : List Str) (i : Nat) (a : α) (h : f l = some a) :
    expectLine f rule (l :: r) i = Except.ok (a, r, i + 1) := by
  simp only [expectLine]
  rw [h]

theorem splitLinesAux_append (l : Str) (h : ∀ c ∈ l, c ≠ '\n') :
    ∀ (s : Str) (acc : Str),
      splitLinesAux (l ++ s) acc = splitLinesAux s (l.reverse ++ acc) := by
  induction l with
  | nil => intro s acc; simp
  | cons c cs ih =>
    intro s acc
    have hc : c ≠ '\n' := h c (List.mem_cons_self c cs)
    have ih' := ih (fun x hx => h x (List.mem_cons_of_mem c hx))
    simp only [List.cons_append, splitLinesAux, if_neg hc]
    show splitLinesAux (cs ++ s) (c :: acc) = splitLinesAux s ((c :: cs).reverse ++ acc)
    rw [ih' s (c :: acc)]
    simp

theorem splitLines_joinLines :
    ∀ ls : List Str, ls ≠ [] → (∀ l ∈ ls, ∀ c ∈ l, c ≠ '\n') →
      splitLines (joinLines ls) = ls := by
  intro ls
  induction ls with
  | nil => intro h; exact absurd rfl h
  | cons l rest ih =>
    intro _ hnl
    have hl : ∀ c ∈ l, c ≠ '\n' := hnl l (List.mem_cons_self l rest)
    cases rest with
    | nil =>
      show splitLinesAux (joinLines [l]) [] = [l]
      have : joinLines [l] = l ++ [] := by simp [joinLines]
      rw [this, splitLinesAux_append l hl [] []]
      simp [splitLinesAux]
    | cons l2 rest2 =>
      have hrest : ∀ l' ∈ l2 :: rest2, ∀ c ∈ l', c ≠ '\n' :=
        fun l' hl' => hnl l' (List.mem_cons_of_mem l hl')
      show splitLinesAux (joinLines (l :: l2 :: rest2)) [] = l :: l2 :: rest2
      have hj : joinLines (l :: l2 :: rest2) = l ++ '\n' :: joinLines (l2 :: rest2) := rfl
      rw [hj, splitLinesAux_append l hl ('\n' :: joinLines (l2 :: rest2)) []]
      simp only [splitLinesAux, if_pos rfl]
      rw [List.append_nil, List.reverse_reverse]
      exact congrArg (l :: ·) (ih (by simp) hrest)

theorem mkGroup_paths {k : GroupKind} {ds : List DiskLine} {v : Vdev}
    (h : mkGroup k ds = some v) : vdevPaths v = ds.map DiskLine.path := by
  cases k with
  | mirror => simp only [mkGroup, Option.some.injEq] at h; rw [← h]; rfl
  | raidz n => simp only [mkGroup, Option.some.injEq] at h; rw [← h]; rfl
  | spare =>
    match ds with
    | [] => exact absurd h (by simp [mkGroup])
    | [d] => simp only [mkGroup, Option.some.injEq] at h; rw [← h]; rfl
    | d1 :: d2 :: dr => exact absurd h (by simp [mkGroup])
  | log =>
    match ds with
    | [] => exact absurd h (by simp [mkGroup])
    | [d] => simp only [mkGroup, Option.some.injEq] at h; rw [← h]; rfl
    | d1 :: d2 :: dr => exact absurd h (by simp [mkGroup])
  | cache =>
    match ds with
    | [] => exact absurd h (by simp [mkGroup])
    | [d] => simp only [mkGroup, Option.some.injEq] at h; rw [← h]; rfl
    | d1 :: d2 :: dr => exact absurd h (by simp [mkGroup])

theorem collectDisks_paths :
    ∀ (ls : List Str) (g : Nat),
      (collectDisks g ls).1.map DiskLine.path ++ linePaths (collectDisks g ls).2 =
        linePaths ls := by
  intro ls
  induction ls with
  | nil => intro g; simp [collectDisks, linePaths]
  | cons l rest ih =>
    intro g
    by_cases hg : g < indentOf l
    · cases hd : parseDiskLine l with
      | none => simp [collectDisks, hg, hd]
      | some d =>
        simp only [collectDisks, if_pos hg, hd]
        simp only [List.map_cons, List.cons_append]
        rw [ih g]
        simp [linePaths, List.filterMap_cons, lineDiskPath, hd]
    · simp [collectDisks, hg]

theorem parseVdevEntries_paths :
    ∀ (fuel : Nat) (ls : List Str),
      vdevsPaths (parseVdevEntries fuel ls).1 ++ linePaths (parseVdevEntries fuel ls).2 =
        linePaths ls := by
  intro fuel
  induction fuel with
  | zero => intro ls; simp [parseVdevEntries, vdevsPaths]
  | succ fuel ih =>
    intro ls
    cases ls with
    | nil => simp [parseVdevEntries, vdevsPaths, linePaths]
    | cons l rest =>
      cases hd : parseDiskLine l with
      | some d =>
        simp only [parseVdevEntries, hd]
        simp only [vdevsPaths, List.foldr_cons, vdevPaths, List.cons_append]
        show DiskLine.path d :: (vdevsPaths (parseVdevEntries fuel rest).1 ++
          linePaths (parseVdevEntries fuel rest).2) = linePaths (l :: rest)
        rw [ih rest]
        simp [linePaths, List.filterMap_cons, lineDiskPath, hd]
      | none =>
        have hline : linePaths (l :: rest) = linePaths rest := by
          simp [linePaths, List.filterMap_cons, lineDiskPath, hd]
        cases hk : groupKindOf l with
        | none => simp [parseVdevEntries, hd, hk, vdevsPaths]
        | some k =>
          cases hq : (collectDisks (indentOf l) rest).1 with
          | nil => simp [parseVdevEntries, hd, hk, hq, vdevsPaths]
          | cons d0 ds0 =>
            cases hm : mkGroup k (d0 :: ds0) with
            | none => simp [parseVdevEntries, hd, hk, hq, hm, vdevsPaths]
            | some v =>
              simp only [parseVdevEntries, hd, hk, hq, hm]
              simp only [vdevsPaths, List.foldr_cons, List.cons_append]
              show (vdevPaths v ++ vdevsPaths (parseVdevEntries fuel (collectDisks (indentOf l) rest).2).1) ++
                  linePaths (parseVdevEntries fuel (collectDisks (indentOf l) rest).2).2 =
                linePaths (l :: rest)
              rw [List.append_assoc, ih ((collectDisks (indentOf l) rest).2),
                  mkGroup_paths hm, ← hq, hline]
              exact collectDisks_paths rest (indentOf l)

/- ### The topology of a successfully parsed block is never empty -/

theorem vdevsStage_topology {nm : Str} {idv : Nat} {hs : HealthState}
    {stat : Option Str} {adv : Advisory} {see : Option Str} {ls : List Str}
    {i : Nat} {pr : Pool × List Str × Nat}
    (h : vdevsStage nm idv hs stat adv see ls i = Except.ok pr) :
    pr.1.topology ≠ [] := by
  unfold vdevsStage at h
  cases hv : parseVdevEntries ls.length ls with
  | mk vs rest =>
    rw [hv] at h
    cases vs with
    | nil => exact absurd h (by simp)
    | cons v vt =>
      simp only [Except.ok.injEq] at h
      rw [← h]
      simp

theorem poolLineStage_topology {nm : Str} {idv : Nat} {hs : HealthState}
    {stat : Option Str} {adv : Advisory} {see : Option Str} {ls : List Str}
    {i : Nat} {pr : Pool × List Str × Nat}
    (h : poolLineStage nm idv hs stat adv see ls i = Except.ok pr) :
    pr.1.topology ≠ [] := by
  unfold poolLineStage at h
  obtain ⟨a, _, h2⟩ := pbind_ok_elim h
  exact vdevsStage_topology h2

theorem configStage_topology {nm : Str} {idv : Nat} {hs : HealthState}
    {stat : Option Str} {adv : Advisory} {see : Option Str} {ls : List Str}
    {i : Nat} {pr : Pool × List Str × Nat}
    (h : configStage nm idv hs stat adv see ls i = Except.ok pr) :
    pr.1.topology ≠ [] := by
  unfold configStage at h
  obtain ⟨a, _, h2⟩ := pbind_ok_elim h
  exact poolLineStage_topology h2

theorem seeStage_topology {nm : Str} {idv : Nat} {hs : HealthState}
    {stat : Option Str} {adv : Advisory} {ls : List Str}
    {i : Nat} {pr : Pool × List Str × Nat}
    (h : seeStage nm idv hs stat adv ls i = Except.ok pr) :
    pr.1.topology ≠ [] := by
  unfold seeStage at h
  exact configStage_topology h

theorem actionStage_topology {nm : Str} {idv : Nat} {hs : HealthState}
    {stat : Option Str} {ls : List Str} {i : Nat} {pr : Pool × List Str × Nat}
    (h : actionStage nm idv hs stat ls i = Except.ok pr) :
    pr.1.topology ≠ [] := by
  unfold actionStage at h
  obtain ⟨a, _, h2⟩ := pbind_ok_elim h
  exact seeStage_topology h2

theorem statusStage_topology {nm : Str} {idv : Nat} {hs : HealthState}
    {ls : List Str} {i : Nat} {pr : Pool × List Str × Nat}
    (h : statusStage nm idv hs ls i = Except.ok pr) :
    pr.1.topology ≠ [] := by
  unfold statusStage at h
  exact actionStage_topology h

theorem stateStage_topology {nm : Str} {idv : Nat}
    {ls : List Str} {i : Nat} {pr : Pool × List Str × Nat}
    (h : stateStage nm idv ls i = Except.ok pr) :
    pr.1.topology ≠ [] := by
  unfold stateStage at h
  obtain ⟨a, _, h2⟩ := pbind_ok_elim h
  exact statusStage_topology h2

theorem idStage_topology {nm : Str}
    {ls : List Str} {i : Nat} {pr : Pool × List Str × Nat}
    (h : idStage nm ls i = Except.ok pr) :
    pr.1.topology ≠ [] := by
  unfold idStage at h
  obtain ⟨a, _, h2⟩ := pbind_ok_elim h
  exact stateStage_topology h2

theorem parsePoolAt_topology {ls : List Str} {i : Nat} {pr : Pool × List Str × Nat}
    (h : parsePoolAt ls i = Except.ok pr) :
    pr.1.topology ≠ [] := by
  unfold parsePoolAt at h
  obtain ⟨a, _, h2⟩ := pbind_ok_elim h
  exact idStage_topology h2

theorem parseZpoolImport_topology {s : Str} {p : Pool}
    (h : parseZpoolImport s = Except.ok p) :
    p.topology ≠ [] := by
  unfold parseZpoolImport parsePoolFull at h
  cases hr : parsePoolAt (splitLines s) 0 with
  | error e => rw [hr] at h; exact absurd h (by simp)
  | ok r =>
    rw [hr] at h
    simp only [Except.ok.injEq] at h
    rw [← h]
    exact parsePoolAt_topology hr

/- ### Applying the stages to header lines with symbolic payloads -/

theorem poolNameLine_app (nm : Str) (ht : nm.takeWhile nameChar = nm) (hn : nm ≠ []) :
    poolNameLine ("pool: ".data ++ nm) = some nm := by
  unfold poolNameLine
  rw [show matchHeader "pool:".data ("pool: ".data ++ nm) = some nm from rfl]
  dsimp only
  rw [show nameToken nm = nm.takeWhile nameChar from rfl, ht]
  cases nm with
  | nil => exact absurd rfl hn
  | cons c cs => rfl

theorem poolIdLine_app (ds : Str) (ht : ds.takeWhile Char.isDigit = ds) (hn : ds ≠ [])
    (hlt : natOfDigits ds < 18446744073709551616) :
    poolIdLine ("     id: ".data ++ ds) = some (natOfDigits ds) := by
  unfold poolIdLine
  rw [show matchHeader "id:".data ("     id: ".data ++ ds) = some ds from rfl]
  dsimp only
  rw [ht]
  cases ds with
  | nil => exact absurd rfl hn
  | cons c cs =>
    dsimp only
    rw [if_pos hlt]

theorem tryStatus_app (st act : Str) (rest : List Str) (i : Nat) (hn : st ≠ []) :
    tryStatus ((" status: ".data ++ st) :: (" action: ".data ++ act) :: rest) i =
      (some st, (" action: ".data ++ act) :: rest, i + 1) := by
  cases st with
  | nil => exact absurd rfl hn
  | cons c cs => rfl

theorem parseAction_app (act url : Str) (rest : List Str) (i : Nat) (hn : act ≠ []) :
    parseAction ((" action: ".data ++ act) :: ("   see: ".data ++ url) :: rest) i =
      Except.ok (mkAdvisory act, ("   see: ".data ++ url) :: rest, i + 1) := by
  cases act with
  | nil => exact absurd rfl hn
  | cons c cs => rfl

theorem trySee_app (url : Str) (rest : List Str) (i : Nat)
    (ht : url.takeWhile (fun c => !isSpace c) = url) (hn : url ≠ []) :
    trySee (("   see: ".data ++ url) :: rest) i = (some url, rest, i + 1) := by
  unfold trySee
  dsimp only
  rw [show matchHeader "see:".data ("   see: ".data ++ url) = some url from rfl]
  dsimp only
  rw [ht]
  cases url with
  | nil => exact absurd rfl hn
  | cons c cs => rfl

/-- C2: for every valid single-pool input text in the naked-block family, the
single-pool entry point returns a `Pool` whose `name` field is exactly the
token following the `pool:` header and whose `id` field is the numeric value
of the decimal digit run following the `id:` header. -/
theorem zpool_import_name_id (nm ds : Str)
    (hnm1 : nm.takeWhile nameChar = nm) (hnm2 : nm ≠ [])
    (hnm3 : ∀ c ∈ nm, c ≠ '\n')
    (hds1 : ds.takeWhile Char.isDigit = ds) (hds2 : ds ≠ [])
    (hds3 : ∀ c ∈ ds, c ≠ '\n')
    (hlt : natOfDigits ds < 18446744073709551616) :
    parseZpoolImport (joinLines (mkNakedLines nm ds)) = Except.ok
      { name := nm, id := natOfDigits ds, health := HealthState.online,
        advisory := Advisory.importable
          "The pool can be imported using its name or numeric identifier.".data,
        status_message := none, see_also := none,
        topology := [Vdev.naked ⟨"/vdevs/import/vdev0".data, HealthState.online, none⟩,
                     Vdev.naked ⟨"/vdevs/import/vdev1".data, HealthState.online, none⟩] } := by
  have hsplit : splitLines (joinLines (mkNakedLines nm ds)) = mkNakedLines nm ds := by
    apply splitLines_joinLines
    · simp [mkNakedLines]
    · intro l hl
      simp only [mkNakedLines, List.mem_cons, List.not_mem_nil, or_false] at hl
      rcases hl with rfl | rfl | rfl | rfl | rfl | rfl | rfl | rfl | rfl
      · exact List.forall_mem_append.mpr ⟨by decide, hnm3⟩
      · exact List.forall_mem_append.mpr ⟨by decide, hds3⟩
      · decide
      · decide
      · decide
      · decide
      · decide
      · decide
      · decide
  have hpool : parsePoolAt (mkNakedLines nm ds) 0 = Except.ok
      ({ name := nm, id := natOfDigits ds, health := HealthState.online,
         advisory := Advisory.importable
           "The pool can be imported using its name or numeric identifier.".data,
         status_message := none, see_also := none,
         topology := [Vdev.naked ⟨"/vdevs/import/vdev0".data, HealthState.online, none⟩,
                      Vdev.naked ⟨"/vdevs/import/vdev1".data, HealthState.online, none⟩] },
       [], 9) := by
    unfold parsePoolAt mkNakedLines
    rw [expectLine_cons _ _ _ _ _ _ (poolNameLine_app nm hnm1 hnm2), pbind_ok]
    dsimp only
    unfold idStage
    rw [expectLine_cons _ _ _ _ _ _ (poolIdLine_app ds hds1 hds2 hlt), pbind_ok]
    rfl
  unfold parseZpoolImport parsePoolFull
  rw [hsplit, hpool]

/-- C6: for every valid pool block in the degraded family — `state: UNAVAIL`,
a `status:` line, an `action:` body holding the "cannot be imported"
phrasing, and a `see:` URL line — the single-pool entry point returns a
`Pool` with health `unavail`, the bad advisory, `some` status message and
`some` URL, all four populated from their respective sections. -/
theorem zpool_import_degraded (st act url : Str)
    (hst1 : st ≠ []) (hst2 : ∀ c ∈ st, c ≠ '\n')
    (hac1 : containsSubstr badPhrase act = true) (hac2 : ∀ c ∈ act, c ≠ '\n')
    (hu1 : url.takeWhile (fun c => !isSpace c) = url) (hu2 : url ≠ [])
    (hu3 : ∀ c ∈ url, c ≠ '\n') :
    parseZpoolImport (joinLines (mkBadLines st act url)) = Except.ok
      { name := "naked_test".data, id := 3364973538352047455,
        health := HealthState.unavail,
        advisory := Advisory.notImportable act,
        status_message := some st, see_also := some url,
        topology := [Vdev.naked ⟨"/vdevs/import/vdev0".data, HealthState.online, none⟩] } := by
  have hacne : act ≠ [] := by
    intro h
    rw [h] at hac1
    exact absurd hac1 (by decide)
  have hadv : mkAdvisory act = Advisory.notImportable act := by
    unfold mkAdvisory
    rw [if_pos hac1]
  have hsplit : splitLines (joinLines (mkBadLines st act url)) = mkBadLines st act url := by
    apply splitLines_joinLines
    · simp [mkBadLines]
    · intro l hl
      simp only [mkBadLines, List.mem_cons, List.not_mem_nil, or_false] at hl
      rcases hl with rfl | rfl | rfl | rfl | rfl | rfl | rfl | rfl | rfl | rfl
      · decide
      · decide
      · decide
      · exact List.forall_mem_append.mpr ⟨by decide, hst2⟩
      · exact List.forall_mem_append.mpr ⟨by decide, hac2⟩
      · exact List.forall_mem_append.mpr ⟨by decide, hu3⟩
      · decide
      · decide
      · decide
      · decide
  have h3 : statusStage "naked_test".data 3364973538352047455 HealthState.unavail
      ((" status: ".data ++ st) :: (" action: ".data ++ act) ::
       ("   see: ".data ++ url) :: " config:".data :: [] ::
       "        naked_test             UNAVAIL  missing device".data ::
       "          /vdevs/import/vdev0  ONLINE".data :: []) 3 = Except.ok
      ({ name := "naked_test".data, id := 3364973538352047455,
         health := HealthState.unavail,
         advisory := Advisory.notImportable act,
         status_message := some st, see_also := some url,
         topology := [Vdev.naked ⟨"/vdevs/import/vdev0".data, HealthState.online, none⟩] },
       [], 10) := by
    unfold statusStage
    rw [tryStatus_app st act _ 3 hst1]
    dsimp only
    unfold actionStage
    rw [parseAction_app act url _ 4 hacne, pbind_ok]
    dsimp only
    unfold seeStage
    rw [trySee_app url _ 5 hu1 hu2]
    dsimp only
    rw [← hadv]
    rfl
  have hpool : parsePoolAt (mkBadLines st act url) 0 = Except.ok
      ({ name := "naked_test".data, id := 3364973538352047455,
         health := HealthState.unavail,
         advisory := Advisory.notImportable act,
         status_message := some st, see_also := some url,
         topology := [Vdev.naked ⟨"/vdevs/import/vdev0".data, HealthState.online, none⟩] },
       [], 10) := h3
  unfold parseZpoolImport parsePoolFull
  rw [hsplit, hpool]

/-- C1 counterexample: an `action:` body holding neither the good nor the bad
phrasing does not make the parse fail — it classifies as the good variant and
the block parses to a `Pool`. -/
theorem action_neutral_body_parses :
    containsSubstr goodPhrase neutralBody = false ∧
    containsSubstr badPhrase neutralBody = false ∧
    classifyAction neutralBody = some (Advisory.importable neutralBody) ∧
    parseZpoolImport neutralText = Except.ok
      { name := "naked_test".data, id := 3364973538352047455,
        health := HealthState.online,
        advisory := Advisory.importable neutralBody,
        status_message := none, see_also := none,
        topology := [Vdev.naked ⟨"/vdevs/import/vdev0".data, HealthState.online, none⟩] } :=
  ⟨rfl, rfl, rfl, rfl⟩

/-- C1 (amended): advisory classification of a nonempty `action:` body is
total and disjoint — a body holding the "cannot be imported" phrasing is the
bad variant, every other body (whether or not it holds the "can be imported"
phrasing) is the good variant, no body is both, and no third outcome exists;
only an empty body fails the rule. -/
theorem action_classification_total (b : Str) (hb : b ≠ []) :
    classifyAction b ≠ none ∧
    (containsSubstr badPhrase b = true →
      classifyAction b = some (Advisory.notImportable b)) ∧
    (containsSubstr badPhrase b = false →
      classifyAction b = some (Advisory.importable b)) ∧
    ¬(classifyAction b = some (Advisory.importable b) ∧
      classifyAction b = some (Advisory.notImportable b)) := by
  cases b with
  | nil => exact absurd rfl hb
  | cons c cs =>
    refine ⟨by simp [classifyAction], ?_, ?_, ?_⟩
    · intro h
      simp [classifyAction, mkAdvisory, h]
    · intro h
      simp [classifyAction, mkAdvisory, h]
    · rintro ⟨h1, h2⟩
      rw [h1] at h2
      simp at h2

/-- C1 witness: the amended classification at the bad body of the test
module. -/
theorem action_classification_total_witness :
    classifyAction badBody ≠ none ∧
    (containsSubstr badPhrase badBody = true →
      classifyAction badBody = some (Advisory.notImportable badBody)) ∧
    (containsSubstr badPhrase badBody = false →
      classifyAction badBody = some (Advisory.importable badBody)) ∧
    ¬(classifyAction badBody = some (Advisory.importable badBody) ∧
      classifyAction badBody = some (Advisory.notImportable badBody)) :=
  action_classification_total badBody (by decide)

/-- C3: no `Pool` with an empty topology root sequence is ever returned for
any input, and a valid block truncated immediately after its `config:`
header (so holding no device lines) fails parsing with a positional error. -/
theorem zpool_import_truncated_fails :
    (∀ (s : Str) (p : Pool), parseZpoolImport s = Except.ok p → p.topology ≠ []) ∧
    (∀ nm ds : Str, nm.takeWhile nameChar = nm → nm ≠ [] → (∀ c ∈ nm, c ≠ '\n') →
      ds.takeWhile Char.isDigit = ds → ds ≠ [] → (∀ c ∈ ds, c ≠ '\n') →
      natOfDigits ds < 18446744073709551616 →
      parseZpoolImport (joinLines (mkTruncLines nm ds)) =
        Except.error ⟨"pool_line".data, 5⟩) ∧
    parseZpoolImport truncText = Except.error ⟨"pool_line".data, 5⟩ := by
  refine ⟨fun s p h => parseZpoolImport_topology h, ?_, rfl⟩
  intro nm ds hnm1 hnm2 hnm3 hds1 hds2 hds3 hlt
  have hsplit : splitLines (joinLines (mkTruncLines nm ds)) = mkTruncLines nm ds := by
    apply splitLines_joinLines
    · simp [mkTruncLines]
    · intro l hl
      simp only [mkTruncLines, List.mem_cons, List.not_mem_nil, or_false] at hl
      rcases hl with rfl | rfl | rfl | rfl | rfl
      · exact List.forall_mem_append.mpr ⟨by decide, hnm3⟩
      · exact List.forall_mem_append.mpr ⟨by decide, hds3⟩
      · decide
      · decide
      · decide
  have hpool : parsePoolAt (mkTruncLines nm ds) 0 =
      Except.error ⟨"pool_line".data, 5⟩ := by
    unfold parsePoolAt mkTruncLines
    rw [expectLine_cons _ _ _ _ _ _ (poolNameLine_app nm hnm1 hnm2), pbind_ok]
    dsimp only
    unfold idStage
    rw [expectLine_cons _ _ _ _ _ _ (poolIdLine_app ds hds1 hds2 hlt), pbind_ok]
    rfl
  unfold parseZpoolImport parsePoolFull
  rw [hsplit, hpool]

/-- C3 witness: the invariant and the truncated failure at the pinned
inputs. -/
theorem zpool_import_truncated_fails_witness :
    goodPool.topology ≠ [] ∧
    parseZpoolImport (joinLines (mkTruncLines "naked_test".data
      "3364973538352047455".data)) = Except.error ⟨"pool_line".data, 5⟩ ∧
    parseZpoolImport truncText = Except.error ⟨"pool_line".data, 5⟩ :=
  ⟨zpool_import_truncated_fails.1 goodText goodPool rfl,
   zpool_import_truncated_fails.2.1 "naked_test".data "3364973538352047455".data
     (by decide) (by decide) (by decide) (by decide) (by decide) (by decide)
     (by decide),
   zpool_import_truncated_fails.2.2⟩

/-- C4: the multi-pool entry point on the two concatenated blocks yields
exactly the two pools in document order; pulling past the end yields no
value and is not an error. -/
theorem zpools_import_two_blocks :
    parseZpoolsImport multiText = Except.ok [goodPool, multiPool2] ∧
    goodPool.name = "naked_test".data ∧
    multiPool2.name = "naked_test2".data ∧
    [goodPool, multiPool2].get? 0 = some goodPool ∧
    [goodPool, multiPool2].get? 1 = some multiPool2 ∧
    [goodPool, multiPool2].get? 2 = none ∧
    [goodPool, multiPool2].drop 2 = [] :=
  ⟨rfl, rfl, rfl, rfl, rfl, rfl, rfl⟩

/-- C5: the device order of the resulting tree equals the textual order of
the input — in general, the flattened disk paths of the parsed vdev entries
followed by those of the unconsumed lines are exactly the disk paths of the
input region — and for the pinned listing the two disks come out in input
order, while reversing the input reverses the output. -/
theorem device_order_preserved :
    (∀ (fuel : Nat) (ls : List Str),
      vdevsPaths (parseVdevEntries fuel ls).1 ++
        linePaths (parseVdevEntries fuel ls).2 = linePaths ls) ∧
    (parseZpoolImport goodText).toOption.map (fun p => vdevsPaths p.topology) =
      some ["/vdevs/import/vdev0".data, "/vdevs/import/vdev1".data] ∧
    (parseZpoolImport goodTextRev).toOption.map (fun p => vdevsPaths p.topology) =
      some ["/vdevs/import/vdev1".data, "/vdevs/import/vdev0".data] :=
  ⟨parseVdevEntries_paths, rfl, rfl⟩

/-- C7: a parse error is never accompanied by a `Pool` — the entry point
returns either a positional error or a value, never both — and an input with
an unrecognized health token fails with an error naming the failing rule and
line. -/
theorem parse_error_no_pool :
    (∀ (s : Str) (e : ParseErr), parseZpoolImport s = Except.error e →
      ∀ p : Pool, parseZpoolImport s ≠ Except.ok p) ∧
    parseZpoolImport bogusStateText = Except.error ⟨"state_enum".data, 2⟩ := by
  refine ⟨?_, rfl⟩
  intro s e he p hp
  rw [he] at hp
  exact Except.noConfusion hp

/-- C7 witness: no pool accompanies the pinned failing input. -/
theorem parse_error_no_pool_witness :
    parseZpoolImport bogusStateText ≠ Except.ok trivialPool :=
  parse_error_no_pool.1 bogusStateText ⟨"state_enum".data, 2⟩
    parse_error_no_pool.2 trivialPool

/-- C8: parsing is deterministic — both entry points, invoked twice on the
same text, return structurally equal results. -/
theorem parse_deterministic (s t : Str) (h : s = t) :
    parseZpoolImport s = parseZpoolImport t ∧
    parseZpoolsImport s = parseZpoolsImport t := by
  rw [h]
  exact ⟨rfl, rfl⟩

/-- C8 witness: determinism at the pinned valid listing. -/
theorem parse_deterministic_witness :
    parseZpoolImport goodText = parseZpoolImport goodText ∧
    parseZpoolsImport goodText = parseZpoolsImport goodText :=
  parse_deterministic goodText goodText rfl

/-- C9: the `status:` body of the degraded listing holds neither the good
nor the bad phrasing, yet the good-message rule matches it and the parsed
pool carries it as its status message — the good/bad split is not a pair of
disjoint keyword sets. -/
theorem status_free_text_is_good_msg :
    actionGoodMsg statusBody = true ∧
    containsSubstr goodPhrase statusBody = false ∧
    containsSubstr badPhrase statusBody = false ∧
    classifyAction statusBody = some (Advisory.importable statusBody) ∧
    (parseZpoolImport badText).toOption.map Pool.status_message =
      some (some statusBody) :=
  ⟨rfl, rfl, rfl, rfl, rfl⟩

/-- C10: the degraded listing carries free-text lines after its last device
line; the single-pool rule still succeeds, the resulting `Pool` covers only
the block, and the trailing lines are left unconsumed. -/
theorem trailing_text_unconsumed :
    parsePoolFull badText = Except.ok (badPool, badTrailing) ∧
    parseZpoolImport badText = Except.ok badPool ∧
    badTrailing ≠ [] :=
  ⟨rfl, rfl, by decide⟩

/-- C2 witness: the name/id extraction at the pinned listing. -/
theorem zpool_import_name_id_witness :
    parseZpoolImport (joinLines (mkNakedLines "naked_test".data
      "3364973538352047455".data)) = Except.ok goodPool :=
  zpool_import_name_id "naked_test".data "3364973538352047455".data
    (by decide) (by decide) (by decide) (by decide) (by decide) (by decide)
    (by decide)

/-- C6 witness: the degraded-family theorem at the pinned section bodies. -/
theorem zpool_import_degraded_witness :
    parseZpoolImport (joinLines (mkBadLines statusBody badBody
      "http://illumos.org/msg/ZFS-8000-6X".data)) = Except.ok badPool :=
  zpool_import_degraded statusBody badBody
    "http://illumos.org/msg/ZFS-8000-6X".data
    (by decide) (by decide) (by decide) (by decide) (by decide) (by decide)
    (by decide)
